import Mathlib

/-!
Verification of the PayLink purchase core: idempotency-key generation
(`generateUniqueRequestId`), success detection (`isVTPassSuccess`), error
message extraction (`extractVTPassErrorMessage`), the response-shape handling
of `purchaseService` / `makePurchase`, the page-level purchase flows with
their retry buttons, and `getVTPassBalance`.

JavaScript strings that may be `undefined` are modelled as `Option String`;
JavaScript truthiness of a string field (`undefined`, `null` and `""` are
falsy) is modelled by `truthy`.  The ambient clock (`Date.now()`) and random
source (`Math.random().toString(36).substring(2, 7)`) are modelled as
explicit arguments, since the source reads them from the environment.
-/

/-- Model of JavaScript string truthiness for an optional string field:
`undefined` and the empty string are falsy. -/
def truthy : Option String → Bool
  | none => false
  | some s => !(s == "")

/-- Model of JavaScript `a || b` for an optional string `a` and default `b`:
returns `b` when `a` is `undefined` or empty. -/
def jsOr (a : Option String) (b : String) : String :=
  match a with
  | none => b
  | some s => if s == "" then b else s

/-- `needle` occurs at the head of `hay` (model for the prefix test used by
the substring check below). -/
def charListStarts : List Char → List Char → Bool
  | [], _ => true
  | _ :: _, [] => false
  | a :: as, b :: bs => a == b && charListStarts as bs

/-- `needle` occurs somewhere in `hay`. -/
def hasSubstr (needle : List Char) : List Char → Bool
  | [] => needle.isEmpty
  | c :: rest => charListStarts needle (c :: rest) || hasSubstr needle rest

/-- Model of JavaScript `hay.includes(needle)`. -/
def jsIncludes (hay needle : String) : Bool :=
  hasSubstr needle.data hay.data

/-! ## Data model: the aggregator response shapes read by the source

These records carry exactly the fields the purchase pipeline reads
(`VTPassResponseData` in `vtpass-helpers`, the `VTPassResponse` interfaces in
`api.ts` / the pages, and the `transaction` field read by `makePurchase`). -/

/-- `content.transactions` of an aggregator response. -/
structure VTTransactions where
  status : Option String := none
  product_name : Option String := none
deriving Repr, DecidableEq

/-- `content` of an aggregator response. -/
structure VTContent where
  transactions : Option VTTransactions := none
deriving Repr, DecidableEq

/-- The `transaction` field checked by `makePurchase` in `VTPassContext`. -/
structure VTTransaction where
  status : Option String := none
deriving Repr, DecidableEq

/-- The nested `response` object of an aggregator payload, as typed inside
`purchaseService` (`api.ts`). -/
structure VTInner where
  code : Option String := none
  content : Option VTContent := none
  response_description : Option String := none
  error_message : Option String := none
  transaction : Option VTTransaction := none
deriving Repr, DecidableEq

/-- An aggregator response, with the union of the fields read anywhere in the
purchase pipeline. Fields absent from a concrete payload are `none`. -/
structure VTResponse where
  code : Option String := none
  response_description : Option String := none
  content : Option VTContent := none
  error_message : Option String := none
  suggested_action : Option String := none
  transaction : Option VTTransaction := none
  response : Option VTInner := none
deriving Repr, DecidableEq

/-- When `purchaseService` returns the nested `response` object itself
(`return vtpassResponse`), that inner object flows onward as the response the
pages inspect; its fields not present on the inner interface are absent. -/
def VTInner.lift (v : VTInner) : VTResponse :=
  { code := v.code
    content := v.content
    response_description := v.response_description
    error_message := v.error_message
    transaction := v.transaction }

/-! ## `vtpass-helpers` (src/unnamed/part_001) -/

/-- `generateUniqueRequestId` from `vtpass-helpers`:
`` `${prefix}-${timestamp}-${randomStr}` `` where `timestamp = Date.now()`
and `randomStr = Math.random().toString(36).substring(2, 7)`.  The clock
value and the drawn random suffix are passed as arguments. -/
def generateUniqueRequestId (prefixStr : String) (timestamp : Nat)
    (randomStr : String) : String :=
  prefixStr ++ "-" ++ Nat.repr timestamp ++ "-" ++ randomStr

/-- `isVTPassSuccess` from `vtpass-helpers`: top-level `code` is `'000'` or
`'01'`, or `response_description` contains `'SUCCESSFUL'`. -/
def isVTPassSuccess (response : VTResponse) : Bool :=
  response.code == some "000" || response.code == some "01" ||
    (truthy response.response_description &&
      jsIncludes (response.response_description.getD "") "SUCCESSFUL")

/-- The `if (responseData?.suggested_action)` append at the end of
`extractVTPassErrorMessage`. -/
def appendSuggestedAction (errorMessage : String)
    (suggested_action : Option String) : String :=
  if truthy suggested_action then
    errorMessage ++ " " ++ suggested_action.getD ""
  else errorMessage

/-- The base `errorMessage` local of `extractVTPassErrorMessage`: the most
specific available of `error_message`, `response_description`, and the
generic fallback. -/
def vtpassBaseErrorMessage (responseData : VTResponse) : String :=
  if truthy responseData.error_message then
    responseData.error_message.getD ""
  else if truthy responseData.response_description then
    responseData.response_description.getD ""
  else "An error occurred with your transaction."

/-- `extractVTPassErrorMessage` from `vtpass-helpers` (src/unnamed/part_001
lines 193-254): the success short-circuits, the base message selection
(`vtpassBaseErrorMessage`), the error-code switch written as the equivalent
chain of equality tests, and the suggested-action append.  Branches that
`return` in the source skip the suggested-action append; branches that
`break` reach it. -/
def extractVTPassErrorMessage (responseData : VTResponse) : String :=
  if responseData.code == some "000" &&
      (match responseData.response_description with
       | some d => jsIncludes d "TRANSACTION SUCCESSFUL"
       | none => false) then
    "Transaction completed successfully!"
  else if responseData.code == some "000" then
    if (match responseData.response_description with
        | some d => jsIncludes d "SUCCESSFUL"
        | none => false) then
      "Transaction completed successfully!"
    else
      appendSuggestedAction (vtpassBaseErrorMessage responseData)
        responseData.suggested_action
  else if responseData.code == some "099" then
    "Transaction is pending. Please wait for confirmation."
  else if responseData.code == some "016" then
    appendSuggestedAction
      ("Transaction failed: " ++
        (if vtpassBaseErrorMessage responseData == "" then "Unknown reason"
         else vtpassBaseErrorMessage responseData))
      responseData.suggested_action
  else if responseData.code == some "014" then
    appendSuggestedAction
      "Insufficient funds in your account. Please add funds and try again."
      responseData.suggested_action
  else if responseData.code == some "010" then
    appendSuggestedAction
      "The selected variation code does not exist for this product. Please try a different bundle."
      responseData.suggested_action
  else if responseData.code == some "009" then
    appendSuggestedAction
      "Duplicate transaction detected. Please check if your previous transaction was successful."
      responseData.suggested_action
  else if responseData.code == some "018" then
    appendSuggestedAction
      "Invalid phone number format. Please check and try again."
      responseData.suggested_action
  else if responseData.code == some "020" then
    appendSuggestedAction
      "Transaction verification failed. Please contact support."
      responseData.suggested_action
  else if responseData.code == some "021" then
    appendSuggestedAction
      "Network error or service unavailable. Please try again later."
      responseData.suggested_action
  else if responseData.code == some "025" then
    appendSuggestedAction
      "Invalid amount for this service. Please enter a valid amount."
      responseData.suggested_action
  else if responseData.code == some "026" then
    appendSuggestedAction
      "Invalid variation code. Please select a different bundle."
      responseData.suggested_action
  else
    appendSuggestedAction (vtpassBaseErrorMessage responseData)
      responseData.suggested_action

/-! ## `purchaseService` (src/lib/api.ts lines 665-713)

The shape handling after a successful HTTP exchange: pass through a
top-level success, unwrap a nested success, or throw a managed error for a
failure-shaped nested `response`; otherwise return the raw payload. -/

/-- The `content?.transactions && (status === 'delivered' || status ===
'successful')` check used twice in `purchaseService`. -/
def transactionsDelivered (content : Option VTContent) : Bool :=
  match content with
  | some c =>
    match c.transactions with
    | some t => t.status == some "delivered" || t.status == some "successful"
    | none => false
  | none => false

/-- The `content?.transactions && transactions.status === "failed"` check in
`purchaseService`. -/
def transactionsFailed (content : Option VTContent) : Bool :=
  match content with
  | some c =>
    match c.transactions with
    | some t => t.status == some "failed"
    | none => false
  | none => false

/-- The managed error thrown by `purchaseService` for a failure-shaped nested
response (`error.responseData = vtpassResponse`). -/
structure ManagedError where
  message : String
  responseData : VTInner
deriving Repr, DecidableEq

/-- `purchaseService` shape handling (src/lib/api.ts lines 665-713): `.ok` is
a returned response, `.error` a thrown managed error. -/
def purchaseService (response : VTResponse) : Except ManagedError VTResponse :=
  if response.code == some "000" || response.code == some "01" ||
      transactionsDelivered response.content then
    .ok response
  else
    match response.response with
    | some vtpassResponse =>
      if vtpassResponse.code == some "000" ||
          transactionsDelivered vtpassResponse.content then
        .ok vtpassResponse.lift
      else if vtpassResponse.code == some "016" ||
          vtpassResponse.code == some "010" ||
          transactionsFailed vtpassResponse.content then
        .error
          { message := jsOr vtpassResponse.response_description
              (jsOr vtpassResponse.error_message "Transaction failed on VTPass")
            responseData := vtpassResponse }
      else .ok response
    | none => .ok response

/-! ## `makePurchase` (VTPassContext, src/unnamed/part_003 lines 346-403) -/

/-- What the underlying exchange did: a payload arrived, the 30s abort fired,
or the transport threw. -/
inductive PurchaseEvent
  | ok (raw : VTResponse)
  | timeout
  | transportError (message : String)
deriving Repr, DecidableEq

/-- The message `makePurchase` wraps an `AbortError` in. -/
def timeoutMessage : String :=
  "The purchase request timed out. Please check your network connection and try again."

/-- The error-response object built in the `catch` of `makePurchase`. -/
def errorResponseOf (message : String) : VTResponse :=
  { code := some "error"
    response_description := some (jsOr (some message) "Purchase failed")
    error_message := some (jsOr (some message) "An unknown error occurred") }

/-- The `isSuccessful` check inside `makePurchase`:
`response.transaction?.status === 'successful' ||
response.response?.transaction?.status === 'successful'`. -/
def makePurchaseIsSuccessful (r : VTResponse) : Bool :=
  (match r.transaction with
   | some t => t.status == some "successful"
   | none => false) ||
  (match r.response with
   | some inner =>
     match inner.transaction with
     | some t => t.status == some "successful"
     | none => false
   | none => false)

/-- Result of `makePurchase`: the response value handed to the page, and how
many times `fetchBalance` was invoked inside `makePurchase` itself. -/
structure MakePurchaseResult where
  response : VTResponse
  fetchBalanceCalls : Nat
deriving Repr, DecidableEq

/-- `makePurchase` (src/unnamed/part_003 lines 346-403): thrown errors
(managed errors from `purchaseService`, timeouts, transport errors) are
swallowed and turned into an error-response object; `fetchBalance` is invoked
when the `isSuccessful` shape check passes. -/
def makePurchase (ev : PurchaseEvent) : MakePurchaseResult :=
  match ev with
  | .timeout => ⟨errorResponseOf timeoutMessage, 0⟩
  | .transportError m => ⟨errorResponseOf m, 0⟩
  | .ok raw =>
    match purchaseService raw with
    | .error e => ⟨errorResponseOf e.message, 0⟩
    | .ok resp =>
      ⟨resp, if makePurchaseIsSuccessful resp then 1 else 0⟩

/-! ## The airtime page (src/app/dashboard/airtime/page.tsx) -/

/-- The page-level classification of one attempt. -/
inductive Outcome
  | Success (message : String)
  | Failed (message : String)
deriving Repr, DecidableEq

/-- Whether an `Outcome` is the success case. -/
def Outcome.isSuccess : Outcome → Bool
  | .Success _ => true
  | .Failed _ => false

/-- The airtime page defines a local `extractVTPassErrorMessage`
(src/app/dashboard/airtime/page.tsx lines 217-250) shadowing the helper of
the same name; retyped here under a page-qualified name. -/
def airtimeExtractVTPassErrorMessage (responseData : VTResponse) : String :=
  if truthy responseData.error_message then
    let message := responseData.error_message.getD ""
    if truthy responseData.suggested_action then
      message ++ " " ++ responseData.suggested_action.getD ""
    else message
  else if responseData.code == some "016" then
    if transactionsFailed responseData.content then
      "Transaction failed: " ++ jsOr responseData.response_description "Unknown reason" ++
        ". Please try again or contact support."
    else jsOr responseData.response_description "Transaction failed on VTPass"
  else if responseData.code == some "014" then
    "Insufficient funds at the provider. Please try again later or contact support."
  else if responseData.code == some "009" then
    "Duplicate transaction detected. Please check if your previous transaction was successful before trying again."
  else jsOr responseData.response_description "Error processing transaction"

/-- The success toast built by the airtime page: the product name when
`response.content?.transactions?.product_name` is truthy, else the generic
amount/phone message. -/
def airtimeSuccessMessage (amount phone : String) (resp : VTResponse) : String :=
  let generic := "Successfully purchased ₦" ++ amount ++ " airtime for " ++ phone
  match resp.content with
  | some c =>
    match c.transactions with
    | some t =>
      match t.product_name with
      | some p => if p == "" then generic else "Successfully purchased " ++ p
      | none => generic
    | none => generic
  | none => generic

/-- Result of one run of `handlePurchaseWithData`: the classified outcome and
the total number of balance-refresh (`fetchBalance`) invocations, counting
both the one inside `makePurchase` and the one in the page success branch. -/
structure PurchaseFlowResult where
  outcome : Outcome
  fetchBalanceCalls : Nat
deriving Repr, DecidableEq

/-- `handlePurchaseWithData` of the airtime page (lines 289-336): classifies
the `makePurchase` result with `isVTPassSuccess`; on success it refreshes the
balance once more, on failure it extracts an error message and does not. -/
def handlePurchaseWithData (amount phone : String) (ev : PurchaseEvent) :
    PurchaseFlowResult :=
  if isVTPassSuccess (makePurchase ev).response then
    ⟨.Success (airtimeSuccessMessage amount phone (makePurchase ev).response),
      (makePurchase ev).fetchBalanceCalls + 1⟩
  else
    ⟨.Failed (airtimeExtractVTPassErrorMessage (makePurchase ev).response),
      (makePurchase ev).fetchBalanceCalls⟩

/-- The classification performed by the electricity / cable-TV / exam pages
(e.g. `handleRetry` in src/app/dashboard/electricity/page.tsx lines 237-251),
which use the imported helper `extractVTPassErrorMessage`. -/
def electricityClassify (resp : VTResponse) : Outcome :=
  if isVTPassSuccess resp then .Success "Payment successful!"
  else .Failed (extractVTPassErrorMessage resp)

/-! ## `getVTPassBalance` (src/lib/api.ts lines 505-534) -/

/-- A JavaScript number: a rational value or `NaN`. -/
inductive JSNumber
  | num (q : ℚ)
  | nan
deriving Repr, DecidableEq

/-- A JSON balance value as typed in `getVTPassBalance`: a string or a
number. -/
inductive BalanceValue
  | str (s : String)
  | num (q : ℚ)
deriving Repr, DecidableEq

/-- The `data` object of a balance response. -/
structure BalanceData where
  balance : Option BalanceValue := none
deriving Repr, DecidableEq

/-- A balance response: `data.balance` nested and/or a direct `balance`. -/
structure BalanceResponse where
  data : Option BalanceData := none
  balance : Option BalanceValue := none
deriving Repr, DecidableEq

/-- The two direct-`balance` branches and the default fallback of
`getVTPassBalance`, reached when `data.balance` is not a string or number. -/
def getVTPassBalanceDirect (parseFloat : String → JSNumber)
    (typedResponse : BalanceResponse) : JSNumber :=
  match typedResponse.balance with
  | some (.num q) => .num q
  | some (.str s) => parseFloat s
  | none => .num 0

/-- `getVTPassBalance` (src/lib/api.ts lines 505-534).  `parseFloat` is
JavaScript `parseFloat`, passed as an argument; a thrown transport error is
the `.error` case of the input and lands in the `catch`, which returns 0. -/
def getVTPassBalance (parseFloat : String → JSNumber)
    (response : Except String BalanceResponse) : JSNumber :=
  match response with
  | .error _ => .num 0
  | .ok typedResponse =>
    match typedResponse.data with
    | some d =>
      match d.balance with
      | some (.str s) => parseFloat s
      | some (.num q) => .num q
      | none => getVTPassBalanceDirect parseFloat typedResponse
    | none => getVTPassBalanceDirect parseFloat typedResponse

/-! ## The airtime purchase session (button guards and retry ceiling)

State machine of the airtime page around one purchase session: the purchase
button is disabled while `isPurchasing` (and while the form is incomplete;
we model the filled form), the retry button is disabled when
`retryCount >= 3 || isPurchasing`, `handleRetryTransaction` bails out when
no failed transaction is stored, and each submission calls
`generateUniqueRequestId` with fresh clock/random observations. -/

/-- Observable state of the airtime page for one session, plus two history
fields for verification: `attempts` counts network submissions issued in the
current session and `requestIds` the idempotency keys they carried. -/
structure AirtimeSessionState where
  retryCount : Nat
  isPurchasing : Bool
  transactionFailed : Bool
  failedTransaction : Bool
  errorMessage : String
  attempts : Nat
  requestIds : List String
deriving Repr, DecidableEq

/-- The page state on mount. -/
def airtimeInit : AirtimeSessionState :=
  { retryCount := 0
    isPurchasing := false
    transactionFailed := false
    failedTransaction := false
    errorMessage := ""
    attempts := 0
    requestIds := [] }

/-- Events of the airtime page: a click on the purchase button, a click on
the retry button (each carrying the clock value and random suffix the key
generator observes), and the arrival of a failed or successful outcome for
the in-flight call. -/
inductive AirtimeEvent
  | clickBuy (t : Nat) (r : String)
  | clickRetry (t : Nat) (r : String)
  | outcomeFailed (message : String)
  | outcomeSuccess
deriving Repr, DecidableEq

/-- One step of the airtime page.  `clickBuy` models the purchase button
(disabled while `isPurchasing`; `handlePurchase` runs `clearFailedState`,
sets `isPurchasing` and submits with a fresh `'air'` key).  `clickRetry`
models the retry button (disabled when `retryCount >= 3 || isPurchasing`)
and `handleRetryTransaction` (bails out without a stored failed transaction;
otherwise increments `retryCount`, sets `isPurchasing` and resubmits with a
fresh `'air-retry'` key).  The outcome events model the tail of
`handlePurchaseWithData`. -/
def airtimeStep (s : AirtimeSessionState) : AirtimeEvent → AirtimeSessionState
  | .clickBuy t r =>
    if s.isPurchasing then s
    else
      { retryCount := 0
        isPurchasing := true
        transactionFailed := false
        failedTransaction := false
        errorMessage := ""
        attempts := 1
        requestIds := [generateUniqueRequestId "air" t r] }
  | .clickRetry t r =>
    if s.retryCount ≥ 3 || s.isPurchasing then s
    else if !s.failedTransaction then s
    else
      { s with
        retryCount := s.retryCount + 1
        isPurchasing := true
        transactionFailed := false
        errorMessage := ""
        attempts := s.attempts + 1
        requestIds := s.requestIds ++ [generateUniqueRequestId "air-retry" t r] }
  | .outcomeFailed m =>
    { s with
      isPurchasing := false
      transactionFailed := true
      failedTransaction := true
      errorMessage := m }
  | .outcomeSuccess =>
    { s with
      isPurchasing := false
      transactionFailed := false
      errorMessage := "" }

/-- Run the airtime page from its initial state over a list of events. -/
def runAirtime (events : List AirtimeEvent) : AirtimeSessionState :=
  events.foldl airtimeStep airtimeInit

/-! ## The electricity purchase session

On the electricity page (and likewise cable-TV and exam) the retry button is
`disabled={!failedTransaction}` and `handleRetry` only checks
`if (!failedTransaction) return;` — there is no retry counter and no
ceiling. -/

/-- Observable state of the electricity page, with the same ghost `attempts`
counter. -/
structure ElectricitySessionState where
  isPurchasing : Bool
  transactionFailed : Bool
  failedTransaction : Bool
  attempts : Nat
deriving Repr, DecidableEq

/-- The electricity page state on mount. -/
def electricityInit : ElectricitySessionState :=
  { isPurchasing := false
    transactionFailed := false
    failedTransaction := false
    attempts := 0 }

/-- Events of the electricity page. -/
inductive ElectricityEvent
  | clickPay
  | clickRetry
  | outcomeFailed
  | outcomeSuccess
deriving Repr, DecidableEq

/-- One step of the electricity page: `handlePurchase` submits when not
already purchasing; `handleRetry` resubmits whenever a failed transaction is
stored — no retry ceiling appears in the source; a failed outcome stores the
failed transaction for retry. -/
def electricityStep (s : ElectricitySessionState) :
    ElectricityEvent → ElectricitySessionState
  | .clickPay =>
    if s.isPurchasing then s
    else
      { s with
        isPurchasing := true
        transactionFailed := false
        attempts := s.attempts + 1 }
  | .clickRetry =>
    if !s.failedTransaction then s
    else
      { s with
        isPurchasing := true
        transactionFailed := false
        attempts := s.attempts + 1 }
  | .outcomeFailed =>
    { s with
      isPurchasing := false
      transactionFailed := true
      failedTransaction := true }
  | .outcomeSuccess =>
    { s with isPurchasing := false, transactionFailed := false }

/-- Run the electricity page from its initial state. -/
def runElectricity (events : List ElectricityEvent) : ElectricitySessionState :=
  events.foldl electricityStep electricityInit

/-! ## Error taxonomy -/

/-- Modelled from the spec: the `ErrorKind` enumeration of §4.2.  The source
has no such enumeration; it encodes kinds only as the fixed message strings
of `extractVTPassErrorMessage`'s code switch. -/
inductive ErrorKind
  | InsufficientProviderFunds
  | DuplicateTransaction
  | InvalidPlanOrVariation
  | InvalidRecipientFormat
  | TransactionPending
  | TransactionFailedGeneric
  | VerificationFailed
  | ProviderUnavailable
  | Unknown
deriving Repr, DecidableEq

/-- Modelled from the spec: the code→kind table of §4.2, read off from the
branches of `extractVTPassErrorMessage`'s switch (src/unnamed/part_001):
each VTPass code is mapped to the kind its fixed message expresses. -/
def classifyVTPassCode : Option String → ErrorKind
  | some "099" => .TransactionPending
  | some "016" => .TransactionFailedGeneric
  | some "014" => .InsufficientProviderFunds
  | some "010" => .InvalidPlanOrVariation
  | some "009" => .DuplicateTransaction
  | some "018" => .InvalidRecipientFormat
  | some "020" => .VerificationFailed
  | some "021" => .ProviderUnavailable
  | some "026" => .InvalidPlanOrVariation
  | _ => .Unknown

/-- The success-marker predicate of the claim under test (C1), written from
the spec: a recognized success marker at any recognized path — top-level
`code` `'000'`/`'01'`, `content.transactions.status`
`'delivered'`/`'successful'`, nested `response.code` `'000'`, nested
`response.content.transactions.status`, or a `response_description`
containing `'SUCCESSFUL'`. -/
def specSuccessMarker (r : VTResponse) : Bool :=
  r.code == some "000" || r.code == some "01" ||
    transactionsDelivered r.content ||
    (match r.response with
     | some v => v.code == some "000" || transactionsDelivered v.content
     | none => false) ||
    (match r.response_description with
     | some d => jsIncludes d "SUCCESSFUL"
     | none => false)

/-! ## Facts about `Nat.repr`, used for idempotency-key distinctness

The generated keys are `prefix-timestamp-random`.  To reason about when two
keys coincide we need that the decimal rendering of the timestamp consists of
digit characters (so the `'-'` separators are unambiguous), is never empty,
and is injective. -/

theorem digitChar_isDigit (m : Nat) (h : m < 10) :
    (Nat.digitChar m).isDigit = true := by
  interval_cases m <;> decide

theorem mem_toDigitsCore_isDigit (fuel : Nat) :
    ∀ (n : Nat) (acc : List Char) (c : Char),
      c ∈ Nat.toDigitsCore 10 fuel n acc → c ∈ acc ∨ c.isDigit = true := by
  induction fuel with
  | zero => intro n acc c hc; exact .inl hc
  | succ fuel ih =>
    intro n acc c hc
    simp only [Nat.toDigitsCore] at hc
    by_cases hdiv : n / 10 = 0
    · simp only [hdiv, if_pos rfl] at hc
      rcases List.mem_cons.mp hc with h | h
      · exact .inr (h ▸ digitChar_isDigit _ (Nat.mod_lt _ (by norm_num)))
      · exact .inl h
    · rw [if_neg hdiv] at hc
      rcases ih (n / 10) (Nat.digitChar (n % 10) :: acc) c hc with h | h
      · rcases List.mem_cons.mp h with h | h
        · exact .inr (h ▸ digitChar_isDigit _ (Nat.mod_lt _ (by norm_num)))
        · exact .inl h
      · exact .inr h

theorem toDigitsCore_ne_nil (fuel : Nat) :
    ∀ (n : Nat) (acc : List Char), fuel ≠ 0 ∨ acc ≠ [] →
      Nat.toDigitsCore 10 fuel n acc ≠ [] := by
  induction fuel with
  | zero =>
    intro n acc h
    rcases h with h | h
    · exact absurd rfl h
    · exact h
  | succ fuel ih =>
    intro n acc _
    simp only [Nat.toDigitsCore]
    by_cases hdiv : n / 10 = 0
    · simp [hdiv]
    · rw [if_neg hdiv]
      exact ih (n / 10) (Nat.digitChar (n % 10) :: acc) (.inr (by simp))

theorem natRepr_isDigit (n : Nat) (c : Char) (hc : c ∈ (Nat.repr n).data) :
    c.isDigit = true := by
  have : c ∈ Nat.toDigitsCore 10 (n + 1) n [] := hc
  rcases mem_toDigitsCore_isDigit _ _ _ _ this with h | h
  · exact absurd h (List.not_mem_nil c)
  · exact h

theorem natRepr_ne_nil (n : Nat) : (Nat.repr n).data ≠ [] :=
  toDigitsCore_ne_nil (n + 1) n [] (.inl (Nat.succ_ne_zero n))

/-- Reading a digit string back as a number (most significant first). -/
def digitStep (a : Nat) (c : Char) : Nat :=
  a * 10 + (c.toNat - '0'.toNat)

theorem foldl_digitStep (l : List Char) :
    ∀ a : Nat, l.foldl digitStep a = a * 10 ^ l.length + l.foldl digitStep 0 := by
  induction l with
  | nil => intro a; simp
  | cons c t ih =>
    intro a
    simp only [List.foldl_cons, List.length_cons]
    rw [ih (digitStep a c), ih (digitStep 0 c)]
    simp only [digitStep]
    ring

theorem digitChar_toNat (m : Nat) (h : m < 10) :
    (Nat.digitChar m).toNat - '0'.toNat = m := by
  interval_cases m <;> decide

theorem toDigitsCore_foldl (fuel : Nat) :
    ∀ (n : Nat) (acc : List Char), n < 10 ^ fuel →
      (Nat.toDigitsCore 10 fuel n acc).foldl digitStep 0 =
        n * 10 ^ acc.length + acc.foldl digitStep 0 := by
  induction fuel with
  | zero =>
    intro n acc hn
    norm_num at hn
    subst hn
    simp [Nat.toDigitsCore]
  | succ fuel ih =>
    intro n acc hn
    simp only [Nat.toDigitsCore]
    have hmod : n % 10 < 10 := Nat.mod_lt _ (by norm_num)
    have hv := digitChar_toNat (n % 10) hmod
    have hsum := Nat.div_add_mod n 10
    by_cases hdiv : n / 10 = 0
    · have hn10 : n % 10 = n := by omega
      rw [if_pos hdiv]
      simp only [List.foldl_cons]
      rw [foldl_digitStep acc (digitStep 0 (Nat.digitChar (n % 10)))]
      simp only [digitStep]
      rw [hv, hn10]
      ring
    · rw [if_neg hdiv]
      have hlt : n / 10 < 10 ^ fuel := by
        apply Nat.div_lt_of_lt_mul
        rw [pow_succ, Nat.mul_comm] at hn
        exact hn
      rw [ih (n / 10) (Nat.digitChar (n % 10) :: acc) hlt]
      simp only [List.length_cons, List.foldl_cons]
      rw [foldl_digitStep acc (digitStep 0 (Nat.digitChar (n % 10)))]
      simp only [digitStep]
      rw [hv]
      conv_rhs => rw [← hsum]
      ring

theorem foldl_digitStep_repr (n : Nat) :
    (Nat.repr n).data.foldl digitStep 0 = n := by
  have hn : n < 10 ^ (n + 1) :=
    lt_of_lt_of_le (Nat.lt_pow_self (by norm_num) n)
      (Nat.pow_le_pow_right (by norm_num) (Nat.le_succ n))
  have := toDigitsCore_foldl (n + 1) n [] hn
  simpa using this

theorem natRepr_injective (m n : Nat) (h : Nat.repr m = Nat.repr n) : m = n := by
  have := congrArg (fun s : String => s.data.foldl digitStep 0) h
  simpa [foldl_digitStep_repr] using this

/-- Splitting a character list at an occurrence of `'-'` that is known not to
occur in the left parts. -/
theorem splitAtMark :
    ∀ (l₁ l₂ m₁ m₂ : List Char), '-' ∉ l₁ → '-' ∉ l₂ →
      l₁ ++ '-' :: m₁ = l₂ ++ '-' :: m₂ → l₁ = l₂ ∧ m₁ = m₂ := by
  intro l₁
  induction l₁ with
  | nil =>
    intro l₂ m₁ m₂ _ hl₂ h
    cases l₂ with
    | nil => simpa using h
    | cons c t =>
      simp only [List.nil_append, List.cons_append, List.cons.injEq] at h
      exact absurd (h.1 ▸ List.mem_cons_self c t) hl₂
  | cons c t ih =>
    intro l₂ m₁ m₂ hl₁ hl₂ h
    cases l₂ with
    | nil =>
      simp only [List.cons_append, List.nil_append, List.cons.injEq] at h
      exact absurd (h.1 ▸ List.mem_cons_self c t) hl₁
    | cons c' t' =>
      simp only [List.cons_append, List.cons.injEq] at h
      have ht := ih t' m₁ m₂ (fun hm => hl₁ (List.mem_cons_of_mem c hm))
        (fun hm => hl₂ (List.mem_cons_of_mem c' hm)) h.2
      exact ⟨by rw [h.1, ht.1], ht.2⟩

theorem mark_not_mem_natRepr (t : Nat) : '-' ∉ (Nat.repr t).data := by
  intro hm
  have := natRepr_isDigit t '-' hm
  simp [Char.isDigit] at this

/-- The character data of a generated key. -/
theorem generateUniqueRequestId_data (p : String) (t : Nat) (r : String) :
    (generateUniqueRequestId p t r).data =
      p.data ++ '-' :: ((Nat.repr t).data ++ '-' :: r.data) := by
  simp [generateUniqueRequestId, String.data_append, List.append_assoc]

/-- Two keys with the same prefix coincide exactly when both the observed
clock value and the observed random suffix coincide. -/
theorem generateUniqueRequestId_inj (p : String) (t t' : Nat) (r r' : String) :
    generateUniqueRequestId p t r = generateUniqueRequestId p t' r' ↔
      t = t' ∧ r = r' := by
  constructor
  · intro h
    have hdata := congrArg String.data h
    rw [generateUniqueRequestId_data, generateUniqueRequestId_data] at hdata
    have hmid : '-' :: ((Nat.repr t).data ++ '-' :: r.data) =
        '-' :: ((Nat.repr t').data ++ '-' :: r'.data) :=
      List.append_cancel_left hdata
    have hsplit := splitAtMark (Nat.repr t).data (Nat.repr t').data
      r.data r'.data (mark_not_mem_natRepr t) (mark_not_mem_natRepr t')
      (List.cons_injective hmid)
    exact ⟨natRepr_injective t t' (String.ext hsplit.1),
      String.ext hsplit.2⟩
  · rintro ⟨rfl, rfl⟩
    rfl

/-- A key generated with the `'air'` prefix never coincides with a key
generated with the `'air-retry'` prefix: after the shared `air-` lead-in, the
former continues with a decimal digit and the latter with `'r'`. -/
theorem generateUniqueRequestId_air_ne_airRetry (t t' : Nat) (r r' : String) :
    generateUniqueRequestId "air" t r ≠ generateUniqueRequestId "air-retry" t' r' := by
  intro h
  have hdata := congrArg String.data h
  rw [generateUniqueRequestId_data, generateUniqueRequestId_data] at hdata
  obtain ⟨c, cs, hc⟩ := List.exists_cons_of_ne_nil (natRepr_ne_nil t)
  have hdig : c.isDigit = true := natRepr_isDigit t c (hc ▸ List.mem_cons_self c cs)
  rw [hc] at hdata
  simp only [List.cons_append, List.nil_append, List.cons.injEq,
    List.append_assoc, show ("air".data : List Char) = ['a', 'i', 'r'] from rfl,
    show ("air-retry".data : List Char) = ['a', 'i', 'r', '-', 'r', 'e', 't', 'r', 'y'] from rfl] at hdata
  obtain ⟨-, -, -, -, hcr, -⟩ := hdata
  rw [hcr] at hdig
  simp [Char.isDigit] at hdig

/-! ## Non-emptiness of extracted error messages -/

theorem String.append_ne_empty_left (a b : String) (h : a ≠ "") :
    a ++ b ≠ "" := by
  intro hab
  apply h
  have hdata : a.data ++ b.data = [] := congrArg String.data hab
  rcases List.append_eq_nil.mp hdata with ⟨ha, -⟩
  exact String.ext ha

theorem truthy_getD_ne_empty (o : Option String) (h : truthy o = true) :
    o.getD "" ≠ "" := by
  cases o with
  | none => simp [truthy] at h
  | some s =>
    simp only [truthy, Bool.not_eq_true'] at h
    simpa using beq_eq_false_iff_ne.mp h

theorem jsOr_ne_empty (a : Option String) (b : String) (hb : b ≠ "") :
    jsOr a b ≠ "" := by
  cases a with
  | none => simpa [jsOr] using hb
  | some s =>
    simp only [jsOr]
    by_cases hs : s == ""
    · simpa [hs] using hb
    · simpa [hs] using beq_eq_false_iff_ne.mp (by simpa using hs)

theorem appendSuggestedAction_ne_empty (m : String) (a : Option String)
    (hm : m ≠ "") : appendSuggestedAction m a ≠ "" := by
  unfold appendSuggestedAction
  by_cases ha : truthy a = true
  · rw [if_pos ha]
    exact String.append_ne_empty_left _ _ (String.append_ne_empty_left _ _ hm)
  · rw [if_neg ha]
    exact hm

theorem vtpassBaseErrorMessage_ne_empty (r : VTResponse) :
    vtpassBaseErrorMessage r ≠ "" := by
  unfold vtpassBaseErrorMessage
  by_cases h1 : truthy r.error_message = true
  · rw [if_pos h1]; exact truthy_getD_ne_empty _ h1
  · rw [if_neg h1]
    by_cases h2 : truthy r.response_description = true
    · rw [if_pos h2]; exact truthy_getD_ne_empty _ h2
    · rw [if_neg h2]; decide

theorem extractVTPassErrorMessage_ne_empty (r : VTResponse) :
    extractVTPassErrorMessage r ≠ "" := by
  have hbase := vtpassBaseErrorMessage_ne_empty r
  unfold extractVTPassErrorMessage
  by_cases h0 : (r.code == some "000" &&
      (match r.response_description with
       | some d => jsIncludes d "TRANSACTION SUCCESSFUL"
       | none => false)) = true
  · rw [if_pos h0]; decide
  · rw [if_neg h0]
    by_cases h1 : (r.code == some "000") = true
    · rw [if_pos h1]
      by_cases h1b : (match r.response_description with
          | some d => jsIncludes d "SUCCESSFUL"
          | none => false) = true
      · rw [if_pos h1b]; decide
      · rw [if_neg h1b]; exact appendSuggestedAction_ne_empty _ _ hbase
    · rw [if_neg h1]
      by_cases h2 : (r.code == some "099") = true
      · rw [if_pos h2]; decide
      · rw [if_neg h2]
        by_cases h3 : (r.code == some "016") = true
        · rw [if_pos h3]
          exact appendSuggestedAction_ne_empty _ _
            (String.append_ne_empty_left _ _ (by decide))
        · rw [if_neg h3]
          by_cases h4 : (r.code == some "014") = true
          · rw [if_pos h4]; apply appendSuggestedAction_ne_empty; decide
          · rw [if_neg h4]
            by_cases h5 : (r.code == some "010") = true
            · rw [if_pos h5]; apply appendSuggestedAction_ne_empty; decide
            · rw [if_neg h5]
              by_cases h6 : (r.code == some "009") = true
              · rw [if_pos h6]; apply appendSuggestedAction_ne_empty; decide
              · rw [if_neg h6]
                by_cases h7 : (r.code == some "018") = true
                · rw [if_pos h7]; apply appendSuggestedAction_ne_empty; decide
                · rw [if_neg h7]
                  by_cases h8 : (r.code == some "020") = true
                  · rw [if_pos h8]; apply appendSuggestedAction_ne_empty; decide
                  · rw [if_neg h8]
                    by_cases h9 : (r.code == some "021") = true
                    · rw [if_pos h9]; apply appendSuggestedAction_ne_empty; decide
                    · rw [if_neg h9]
                      by_cases h10 : (r.code == some "025") = true
                      · rw [if_pos h10]; apply appendSuggestedAction_ne_empty; decide
                      · rw [if_neg h10]
                        by_cases h11 : (r.code == some "026") = true
                        · rw [if_pos h11]; apply appendSuggestedAction_ne_empty; decide
                        · rw [if_neg h11]
                          exact appendSuggestedAction_ne_empty _ _ hbase

/-! ## Helper lemmas about the purchase pipeline -/

theorem purchaseService_response_none (raw : VTResponse)
    (h : raw.response = none) : purchaseService raw = .ok raw := by
  unfold purchaseService
  split
  · rfl
  · rw [h]

theorem purchaseService_top_success (raw : VTResponse)
    (h : raw.code = some "000" ∨ raw.code = some "01") :
    purchaseService raw = .ok raw := by
  have hc : (raw.code == some "000" || raw.code == some "01" ||
      transactionsDelivered raw.content) = true := by
    rcases h with h | h <;> rw [h] <;> simp
  unfold purchaseService
  rw [if_pos hc]

theorem isVTPassSuccess_of_code (raw : VTResponse)
    (h : raw.code = some "000" ∨ raw.code = some "01") :
    isVTPassSuccess raw = true := by
  unfold isVTPassSuccess
  rcases h with h | h <;> rw [h] <;> simp

theorem isVTPassSuccess_of_description (resp : VTResponse) (d : String)
    (hd : resp.response_description = some d)
    (hi : jsIncludes d "SUCCESSFUL" = true) : isVTPassSuccess resp = true := by
  have hne : (d == "") = false := by
    cases hdd : d == ""
    · rfl
    · exfalso
      have hdeq : d = "" := by simpa using hdd
      rw [hdeq] at hi
      simp [jsIncludes, hasSubstr, List.isEmpty] at hi
  unfold isVTPassSuccess
  rw [hd]
  simp [truthy, hne, hi]

theorem makePurchase_ok_of_ok (raw resp : VTResponse)
    (h : purchaseService raw = .ok resp) :
    makePurchase (.ok raw) =
      ⟨resp, if makePurchaseIsSuccessful resp then 1 else 0⟩ := by
  unfold makePurchase
  dsimp only
  rw [h]

theorem makePurchaseIsSuccessful_absent (raw : VTResponse)
    (h1 : raw.transaction = none) (h2 : raw.response = none) :
    makePurchaseIsSuccessful raw = false := by
  unfold makePurchaseIsSuccessful
  rw [h1, h2]
  rfl

theorem handlePurchaseWithData_outcome_isSuccess (a p : String)
    (ev : PurchaseEvent) :
    (handlePurchaseWithData a p ev).outcome.isSuccess =
      isVTPassSuccess (makePurchase ev).response := by
  unfold handlePurchaseWithData
  by_cases h : isVTPassSuccess (makePurchase ev).response = true
  · rw [if_pos h, h]; rfl
  · rw [if_neg h]
    rw [Bool.not_eq_true] at h
    rw [h]; rfl

theorem handlePurchaseWithData_calls (a p : String) (ev : PurchaseEvent) :
    (handlePurchaseWithData a p ev).fetchBalanceCalls =
      (if isVTPassSuccess (makePurchase ev).response then
        (makePurchase ev).fetchBalanceCalls + 1
       else (makePurchase ev).fetchBalanceCalls) := by
  unfold handlePurchaseWithData
  split <;> rfl

/-! ## The airtime retry ceiling -/

/-- Invariant of the airtime session machine: the number of submissions of
the current session is at most `retryCount + 1`, and `retryCount` never
exceeds 3. -/
def AirtimeInv (s : AirtimeSessionState) : Prop :=
  s.attempts ≤ s.retryCount + 1 ∧ s.retryCount ≤ 3

theorem airtimeStep_inv (s : AirtimeSessionState) (e : AirtimeEvent)
    (h : AirtimeInv s) : AirtimeInv (airtimeStep s e) := by
  obtain ⟨h1, h2⟩ := h
  cases e with
  | clickBuy t r =>
    dsimp only [airtimeStep]
    split
    · exact ⟨h1, h2⟩
    · exact ⟨by dsimp; omega, by dsimp; omega⟩
  | clickRetry t r =>
    dsimp only [airtimeStep]
    split
    · exact ⟨h1, h2⟩
    · split
      · exact ⟨h1, h2⟩
      · rename_i hguard _
        have h3 : s.retryCount < 3 := by
          simp only [Bool.or_eq_true, decide_eq_true_eq, not_or, ge_iff_le] at hguard
          omega
        refine ⟨?_, ?_⟩ <;> dsimp <;> omega
  | outcomeFailed m => exact ⟨h1, h2⟩
  | outcomeSuccess => exact ⟨h1, h2⟩

theorem runAirtime_inv (es : List AirtimeEvent) : AirtimeInv (runAirtime es) := by
  have hinit : AirtimeInv airtimeInit := ⟨by decide, by decide⟩
  unfold runAirtime
  generalize airtimeInit = s at hinit ⊢
  induction es generalizing s with
  | nil => exact hinit
  | cons e t ih => exact ih _ (airtimeStep_inv s e hinit)

/-- A retry click on the airtime page with the ceiling reached is a no-op:
the button is disabled, no submission is issued, and no error value of any
kind is produced. -/
theorem airtimeStep_retry_blocked (s : AirtimeSessionState) (t : Nat)
    (r : String) (h : 3 ≤ s.retryCount) :
    airtimeStep s (.clickRetry t r) = s := by
  dsimp only [airtimeStep]
  rw [if_pos (by simp [h])]

/-- A purchase trace of the electricity page with five submissions: the
initial purchase fails, and four retries are all accepted — the source has
no retry ceiling on this page. -/
def electricityFiveAttemptTrace : List ElectricityEvent :=
  [.clickPay, .outcomeFailed, .clickRetry, .outcomeFailed, .clickRetry,
   .outcomeFailed, .clickRetry, .outcomeFailed, .clickRetry]

/-- The concrete raw response of the C1 counterexample: a success marker only
at the recognized path `response.content.transactions.status`. -/
def nestedDeliveredOnly : VTResponse :=
  { response := some { content := some { transactions := some { status := some "delivered" } } } }

/-- The duplicate-key trace for C4: two retries that observe the same clock
value and the same random suffix. -/
def airtimeDuplicateKeyTrace : List AirtimeEvent :=
  [.clickBuy 1 "aa", .outcomeFailed "x", .clickRetry 5 "ab",
   .outcomeFailed "x", .clickRetry 5 "ab"]

/-- The nested-success scenario of the spec: `{response: {code: "000"}}`. -/
def nestedCode000 : VTResponse := { response := some { code := some "000" } }

/-- A failure-coded response whose description contains `UNSUCCESSFUL`. -/
def transactionUnsuccessfulResp : VTResponse :=
  { code := some "016", response_description := some "TRANSACTION UNSUCCESSFUL" }

/-! ## Claim theorems -/

/-- C1 (counterexample): a raw response carrying a recognized success marker
only at the nested path `response.content.transactions.status = "delivered"`
is presented by the purchase flow as a failure, not as Success:
`purchaseService` unwraps the nested object, but the page then re-checks the
result with `isVTPassSuccess`, which only looks at `code` and
`response_description` — so the claimed precedence law fails. -/
theorem claim_C1_counterexample :
    specSuccessMarker nestedDeliveredOnly = true ∧
    (handlePurchaseWithData "100" "08012345678"
        (.ok nestedDeliveredOnly)).outcome =
      .Failed "Error processing transaction" ∧
    (handlePurchaseWithData "100" "08012345678"
        (.ok nestedDeliveredOnly)).outcome.isSuccess = false :=
  ⟨by decide, by decide, by decide⟩

/-- C1 (amended): the purchase flow yields Success for a top-level `code` of
`'000'`/`'01'`; for a nested `response.code = "000"` when no top-level
`code`/`content` field intercepts; and for a `response_description`
containing `'SUCCESSFUL'` when no nested `response` field is present.  In
particular the nested scenario `{response: {code: "000"}}` yields Success.
Markers at the `content.transactions.status` paths alone are not honoured by
the page check (see the counterexample). -/
theorem claim_C1_amended (raw : VTResponse) (v : VTInner) (a p : String) :
    ((raw.code = some "000" ∨ raw.code = some "01") →
      (handlePurchaseWithData a p (.ok raw)).outcome.isSuccess = true) ∧
    (raw.code = none → raw.content = none → raw.response = some v →
      v.code = some "000" →
      (handlePurchaseWithData a p (.ok raw)).outcome.isSuccess = true) ∧
    (∀ d, raw.response_description = some d → jsIncludes d "SUCCESSFUL" = true →
      raw.response = none →
      (handlePurchaseWithData a p (.ok raw)).outcome.isSuccess = true) ∧
    (handlePurchaseWithData a p (.ok nestedCode000)).outcome.isSuccess = true := by
  refine ⟨?_, ?_, ?_, ?_⟩
  · intro h
    rw [handlePurchaseWithData_outcome_isSuccess,
      makePurchase_ok_of_ok raw raw (purchaseService_top_success raw h)]
    exact isVTPassSuccess_of_code raw h
  · intro hc hcont hresp hv
    have hcond : (raw.code == some "000" || raw.code == some "01" ||
        transactionsDelivered raw.content) = false := by
      rw [hc, hcont]; rfl
    have hnot : ¬ ((raw.code == some "000" || raw.code == some "01" ||
        transactionsDelivered raw.content) = true) := by
      rw [hcond]; simp
    have hvcond : (v.code == some "000" ||
        transactionsDelivered v.content) = true := by
      rw [hv]; simp
    have hps : purchaseService raw = .ok v.lift := by
      unfold purchaseService
      rw [if_neg hnot, hresp]
      dsimp only
      rw [if_pos hvcond]
    rw [handlePurchaseWithData_outcome_isSuccess,
      makePurchase_ok_of_ok raw _ hps]
    exact isVTPassSuccess_of_code _ (.inl (by simp [VTInner.lift, hv]))
  · intro d hd hi hnone
    rw [handlePurchaseWithData_outcome_isSuccess,
      makePurchase_ok_of_ok raw raw (purchaseService_response_none raw hnone)]
    exact isVTPassSuccess_of_description raw d hd hi
  · rw [handlePurchaseWithData_outcome_isSuccess]
    decide

/-- C1 (witness): the amended success paths at concrete inputs, including the
nested `{response: {code: "000"}}` scenario. -/
theorem claim_C1_amended_witness :
    (handlePurchaseWithData "100" "08012345678"
        (.ok { code := some "000" })).outcome.isSuccess = true ∧
    (handlePurchaseWithData "100" "08012345678"
        (.ok nestedCode000)).outcome.isSuccess = true ∧
    (handlePurchaseWithData "100" "08012345678"
        (.ok { response_description := some "TRANSACTION SUCCESSFUL" })).outcome.isSuccess = true :=
  ⟨(claim_C1_amended { code := some "000" } {} "100" "08012345678").1 (.inl rfl),
   (claim_C1_amended nestedCode000 { code := some "000" }
      "100" "08012345678").2.1 rfl rfl rfl rfl,
   (claim_C1_amended { response_description := some "TRANSACTION SUCCESSFUL" }
      {} "100" "08012345678").2.2.1 "TRANSACTION SUCCESSFUL" rfl (by decide) rfl⟩

/-- C2: `isVTPassSuccess` accepts every response whose `response_description`
contains the substring `'SUCCESSFUL'`, regardless of the `code` field — in
particular `"TRANSACTION UNSUCCESSFUL"` is accepted, since `'UNSUCCESSFUL'`
contains `'SUCCESSFUL'` — and the purchase flow then presents such a
response to the user as a successful purchase. -/
theorem claim_C2 :
    (∀ (resp : VTResponse) (d : String), resp.response_description = some d →
        jsIncludes d "SUCCESSFUL" = true → isVTPassSuccess resp = true) ∧
    (∀ (resp : VTResponse) (d : String), resp.response_description = some d →
        jsIncludes d "SUCCESSFUL" = true → resp.response = none →
        ∀ a p : String,
          (handlePurchaseWithData a p (.ok resp)).outcome.isSuccess = true) ∧
    jsIncludes "TRANSACTION UNSUCCESSFUL" "SUCCESSFUL" = true := by
  refine ⟨isVTPassSuccess_of_description, ?_, by decide⟩
  intro resp d hd hi hnone a p
  rw [handlePurchaseWithData_outcome_isSuccess,
    makePurchase_ok_of_ok resp resp (purchaseService_response_none resp hnone)]
  exact isVTPassSuccess_of_description resp d hd hi

/-- C2 (witness): the response `{code: "016", response_description:
"TRANSACTION UNSUCCESSFUL"}` is accepted by the predicate and presented by
the purchase flow as a successful purchase. -/
theorem claim_C2_witness :
    isVTPassSuccess transactionUnsuccessfulResp = true ∧
    (handlePurchaseWithData "500" "08012345678"
        (.ok transactionUnsuccessfulResp)).outcome.isSuccess = true :=
  ⟨claim_C2.1 transactionUnsuccessfulResp "TRANSACTION UNSUCCESSFUL" rfl (by decide),
   claim_C2.2.1 transactionUnsuccessfulResp "TRANSACTION UNSUCCESSFUL" rfl
     (by decide) rfl "500" "08012345678"⟩

/-- C3 (counterexample): on the electricity page a session reaches five
submissions — the initial attempt plus four accepted retries — because
neither the retry button (`disabled={!failedTransaction}`) nor `handleRetry`
checks any retry count; the claimed ceiling of `MAX_RETRIES + 1 = 4`
attempts does not hold on every purchase category. -/
theorem claim_C3_counterexample :
    (runElectricity electricityFiveAttemptTrace).attempts = 5 ∧
    3 + 1 < (runElectricity electricityFiveAttemptTrace).attempts :=
  ⟨by decide, by decide⟩

/-- C3 (amended): on the airtime page (and identically the data page, whose
retry button carries the same `retryCount >= 3` guard) a session never
exceeds `3 + 1` attempts, and once `retryCount` has reached 3 a further
retry click is silently ignored (disabled button) rather than rejected with
a `RetriesExhausted` error; the electricity, cable-TV and exam pages have no
ceiling, as the five-attempt trace shows. -/
theorem claim_C3_amended (es : List AirtimeEvent) (s : AirtimeSessionState)
    (t : Nat) (r : String) :
    (runAirtime es).attempts ≤ 3 + 1 ∧
    (3 ≤ s.retryCount → airtimeStep s (.clickRetry t r) = s) ∧
    (runElectricity electricityFiveAttemptTrace).attempts = 5 := by
  refine ⟨?_, airtimeStep_retry_blocked s t r, by decide⟩
  obtain ⟨h1, h2⟩ := runAirtime_inv es
  omega

/-- C3 (witness): a concrete airtime state with the ceiling reached, on which
a retry click changes nothing. -/
theorem claim_C3_amended_witness :
    (runAirtime []).attempts ≤ 3 + 1 ∧
    airtimeStep
      { retryCount := 3, isPurchasing := false, transactionFailed := true
        failedTransaction := true, errorMessage := "failed", attempts := 4
        requestIds := [] } (.clickRetry 9 "zz") =
      { retryCount := 3, isPurchasing := false, transactionFailed := true
        failedTransaction := true, errorMessage := "failed", attempts := 4
        requestIds := [] } :=
  ⟨(claim_C3_amended [] airtimeInit 9 "zz").1,
   (claim_C3_amended []
      { retryCount := 3, isPurchasing := false, transactionFailed := true
        failedTransaction := true, errorMessage := "failed", attempts := 4
        requestIds := [] } 9 "zz").2.1 (by decide)⟩

/-- C4 (counterexample): two retries whose `generateUniqueRequestId` calls
observe the same millisecond clock value and the same random suffix produce
identical idempotency keys, so two attempts of one session can share a key;
the claimed unconditional distinctness fails. -/
theorem claim_C4_counterexample :
    (runAirtime airtimeDuplicateKeyTrace).requestIds =
      ["air-1-aa", "air-retry-5-ab", "air-retry-5-ab"] ∧
    ¬ (runAirtime airtimeDuplicateKeyTrace).requestIds.Nodup :=
  ⟨by decide, by decide⟩

/-- C4 (amended): a retry always overrides the stored `request_id` with a
fresh generator call; the first retry key (`'air-retry'` prefix) can never
equal the initial key (`'air'` prefix), and two retry keys differ whenever
the observed (timestamp, random-suffix) pairs differ — they coincide exactly
when both observations repeat. -/
theorem claim_C4_amended (t t' : Nat) (r r' : String) :
    generateUniqueRequestId "air" t r ≠ generateUniqueRequestId "air-retry" t' r' ∧
    ((t, r) ≠ (t', r') →
      generateUniqueRequestId "air-retry" t r ≠
        generateUniqueRequestId "air-retry" t' r') := by
  refine ⟨generateUniqueRequestId_air_ne_airRetry t t' r r', ?_⟩
  intro hne heq
  rcases (generateUniqueRequestId_inj "air-retry" t t' r r').mp heq with ⟨rfl, rfl⟩
  exact hne rfl

/-- C4 (witness): the amended distinctness at concrete observations. -/
theorem claim_C4_amended_witness :
    generateUniqueRequestId "air" 5 "ab" ≠
      generateUniqueRequestId "air-retry" 5 "ab" ∧
    generateUniqueRequestId "air-retry" 5 "ab" ≠
      generateUniqueRequestId "air-retry" 5 "ac" :=
  ⟨(claim_C4_amended 5 5 "ab" "ab").1,
   (claim_C4_amended 5 5 "ab" "ac").2 (by decide)⟩

/-- The double-click trace for C5: a second purchase click arrives while the
first call is still in flight. -/
def airtimeDoubleClickTrace : List AirtimeEvent :=
  [.clickBuy 1 "aa", .clickBuy 2 "bb"]

/-- C5 (counterexample): a second submit while the first is in flight leaves
the page state completely unchanged — one network call in total, no error
message, and no error value of any kind — whereas the claim requires the
second call to be rejected with a `ConcurrentSubmissionRejected` error; no
such error exists anywhere in the source. -/
theorem claim_C5_counterexample :
    runAirtime airtimeDoubleClickTrace = runAirtime [.clickBuy 1 "aa"] ∧
    (runAirtime airtimeDoubleClickTrace).attempts = 1 ∧
    (runAirtime airtimeDoubleClickTrace).errorMessage = "" :=
  ⟨by decide, by decide, by decide⟩

/-- C5 (amended): single-flight does hold, but by silent means: while a call
is in flight the purchase button is disabled, so a second click is a no-op
and exactly one network call is issued for the session — the second
submission is ignored, not rejected with an error. -/
theorem claim_C5_amended (s : AirtimeSessionState) (t : Nat) (r : String)
    (t1 t2 : Nat) (r1 r2 : String) :
    (s.isPurchasing = true → airtimeStep s (.clickBuy t r) = s) ∧
    (runAirtime [.clickBuy t1 r1, .clickBuy t2 r2]).attempts = 1 := by
  refine ⟨?_, rfl⟩
  intro h
  dsimp only [airtimeStep]
  rw [if_pos h]

/-- C5 (witness): the amended single-flight behaviour at a concrete in-flight
state and a concrete double click. -/
theorem claim_C5_amended_witness :
    airtimeStep
      { retryCount := 0, isPurchasing := true, transactionFailed := false
        failedTransaction := false, errorMessage := "", attempts := 1
        requestIds := ["air-1-aa"] } (.clickBuy 2 "bb") =
      { retryCount := 0, isPurchasing := true, transactionFailed := false
        failedTransaction := false, errorMessage := "", attempts := 1
        requestIds := ["air-1-aa"] } ∧
    (runAirtime [.clickBuy 1 "aa", .clickBuy 2 "bb"]).attempts = 1 :=
  ⟨(claim_C5_amended
      { retryCount := 0, isPurchasing := true, transactionFailed := false
        failedTransaction := false, errorMessage := "", attempts := 1
        requestIds := ["air-1-aa"] } 2 "bb" 1 2 "aa" "bb").1 rfl,
   (claim_C5_amended airtimeInit 0 "" 1 2 "aa" "bb").2⟩

/-- C6 (counterexample): a timeout is a terminal Failed outcome, yet the
balance reconciler is invoked zero times for it, not exactly once: both
`makePurchase` and the page refresh the balance only on success-classified
responses. -/
theorem claim_C6_counterexample :
    handlePurchaseWithData "100" "08012345678" .timeout =
      ⟨.Failed timeoutMessage, 0⟩ ∧
    (handlePurchaseWithData "100" "08012345678" .timeout).fetchBalanceCalls ≠ 1 :=
  ⟨by decide, by decide⟩

/-- C6 (amended): for a plain response (no nested `response` field, no
`transaction` field) the balance refresh runs exactly once when the page
classifies the response successful, and zero times when it classifies it
failed; a timeout also triggers zero refreshes. -/
theorem claim_C6_amended (raw : VTResponse) (a p : String) :
    (raw.response = none → raw.transaction = none →
      isVTPassSuccess raw = true →
      (handlePurchaseWithData a p (.ok raw)).fetchBalanceCalls = 1) ∧
    (raw.response = none → raw.transaction = none →
      isVTPassSuccess raw = false →
      (handlePurchaseWithData a p (.ok raw)).fetchBalanceCalls = 0) ∧
    (handlePurchaseWithData a p .timeout).fetchBalanceCalls = 0 := by
  refine ⟨?_, ?_, rfl⟩
  · intro hresp htx hsucc
    rw [handlePurchaseWithData_calls,
      makePurchase_ok_of_ok raw raw (purchaseService_response_none raw hresp)]
    simp [hsucc, makePurchaseIsSuccessful_absent raw htx hresp]
  · intro hresp htx hfail
    rw [handlePurchaseWithData_calls,
      makePurchase_ok_of_ok raw raw (purchaseService_response_none raw hresp)]
    simp [hfail, makePurchaseIsSuccessful_absent raw htx hresp]

/-- C6 (witness): one refresh on a plain success, zero on a plain failure. -/
theorem claim_C6_amended_witness :
    (handlePurchaseWithData "200" "08020000000"
        (.ok { code := some "000" })).fetchBalanceCalls = 1 ∧
    (handlePurchaseWithData "200" "08020000000"
        (.ok { code := some "016" })).fetchBalanceCalls = 0 :=
  ⟨(claim_C6_amended { code := some "000" } "200" "08020000000").1
      rfl rfl (by decide),
   (claim_C6_amended { code := some "016" } "200" "08020000000").2.1
      rfl rfl (by decide)⟩

/-- C7: the raw response `{code: "014"}` is classified as a failure with the
fixed insufficient-funds message — non-empty, not the success outcome, and
not the pending message of code `"099"`; the spec-modelled code→kind table
maps `"014"` to `InsufficientProviderFunds`. -/
theorem claim_C7 :
    electricityClassify { code := some "014" } =
      .Failed "Insufficient funds in your account. Please add funds and try again." ∧
    (electricityClassify { code := some "014" }).isSuccess = false ∧
    isVTPassSuccess { code := some "014" } = false ∧
    extractVTPassErrorMessage { code := some "014" } ≠ "" ∧
    extractVTPassErrorMessage { code := some "014" } ≠
      "Transaction is pending. Please wait for confirmation." ∧
    classifyVTPassCode (some "014") = .InsufficientProviderFunds :=
  ⟨by decide, by decide, by decide, by decide, by decide, rfl⟩

/-- C8: the error classifier is total — it is a function, so it never throws
— and it never returns the empty string; with no code, no description and no
other signal it returns the generic message. -/
theorem claim_C8 :
    (∀ r : VTResponse, extractVTPassErrorMessage r ≠ "") ∧
    extractVTPassErrorMessage {} = "An error occurred with your transaction." :=
  ⟨extractVTPassErrorMessage_ne_empty, by decide⟩

/-- C8 (witness): the generic fallback at the all-absent input is non-empty
and equals the generic message. -/
theorem claim_C8_witness :
    extractVTPassErrorMessage {} ≠ "" ∧
    extractVTPassErrorMessage {} = "An error occurred with your transaction." :=
  ⟨claim_C8.1 {}, claim_C8.2⟩

/-- C9 (counterexample): the generator is a pure function of the prefix, the
observed clock value and the observed random suffix, so two calls with
identical arguments that also observe the same clock value and the same
random draw return the same string — distinctness is not unconditional. -/
theorem claim_C9_counterexample :
    ¬ ∀ (t : Nat) (r r' : String),
        generateUniqueRequestId "tx" t r ≠ generateUniqueRequestId "tx" t r' :=
  fun h => h 1700000000000 "k3j9m" "k3j9m" rfl

/-- C9 (amended): two keys with the same prefix coincide exactly when both
the observed clock value and the observed random suffix coincide; in
particular, with the same timestamp the keys differ precisely when the
random suffixes differ — the time component does not separate
same-millisecond calls. -/
theorem claim_C9_amended (p : String) (t t' : Nat) (r r' : String) :
    generateUniqueRequestId p t r = generateUniqueRequestId p t' r' ↔
      t = t' ∧ r = r' :=
  generateUniqueRequestId_inj p t t' r r'

/-- C9 (witness): same timestamp, different random suffixes, different keys;
and equal observations give equal keys. -/
theorem claim_C9_amended_witness :
    generateUniqueRequestId "tx" 7 "aa" ≠ generateUniqueRequestId "tx" 7 "ab" ∧
    generateUniqueRequestId "tx" 7 "aa" = generateUniqueRequestId "tx" 7 "aa" :=
  ⟨fun h => absurd ((claim_C9_amended "tx" 7 7 "aa" "ab").mp h).2 (by decide),
   (claim_C9_amended "tx" 7 7 "aa" "aa").mpr ⟨rfl, rfl⟩⟩

/-- C10: the balance refresh is a total function — it never throws — and for
every response shape it returns a number: `data.balance` as a number is
passed through, `data.balance` as a string is coerced with `parseFloat`, a
direct `balance` key is handled the same way, and an unrecognized shape or a
thrown transport error yields 0. -/
theorem claim_C10 :
    (∀ (pf : String → JSNumber) (e : String),
        getVTPassBalance pf (.error e) = .num 0) ∧
    (∀ (pf : String → JSNumber) (q : ℚ),
        getVTPassBalance pf
          (.ok { data := some { balance := some (.num q) } }) = .num q) ∧
    (∀ (pf : String → JSNumber) (s : String),
        getVTPassBalance pf
          (.ok { data := some { balance := some (.str s) } }) = pf s) ∧
    (∀ (pf : String → JSNumber) (q : ℚ),
        getVTPassBalance pf (.ok { balance := some (.num q) }) = .num q) ∧
    (∀ (pf : String → JSNumber) (s : String),
        getVTPassBalance pf (.ok { balance := some (.str s) }) = pf s) ∧
    (∀ pf : String → JSNumber, getVTPassBalance pf (.ok {}) = .num 0) ∧
    (∀ pf : String → JSNumber,
        getVTPassBalance pf (.ok { data := some {} }) = .num 0) ∧
    (∀ (pf : String → JSNumber) (q : ℚ),
        getVTPassBalance pf
          (.ok { data := some {}, balance := some (.num q) }) = .num q) :=
  ⟨fun _ _ => rfl, fun _ _ => rfl, fun _ _ => rfl, fun _ _ => rfl,
   fun _ _ => rfl, fun _ => rfl, fun _ => rfl, fun _ _ => rfl⟩
